import Mathlib

/-!
Shallow Lean embedding of `src/handlers/aws/utils.py` from the
elastic-serverless-forwarder repository, together with a spec-level model of
the Elasticsearch shipper pending buffer (whose source is outside `src/`),
and proofs about the embedded operations.

Python dictionaries are embedded as structures whose optional fields model
presence or absence of the corresponding key; fallible Python code (raising
exceptions) is embedded as `Except PyExc`.
-/

namespace ESF

/-- Python exception values that the embedded code can raise. The four
dedicated constructors model the exception classes declared in utils.py;
`otherExc` stands for any other exception value, carrying its repr. -/
inductive PyExc where
  | keyError (key : String)
  | indexError
  | valueError (msg : String)
  | exception (msg : String)
  | triggerTypeExc (msg : String)
  | configFileExc (msg : String)
  | inputConfigExc (msg : String)
  | outputConfigExc (msg : String)
  | otherExc (reprStr : String)
deriving DecidableEq, Repr

/-- Python `sub in s` on strings: substring containment. -/
def strContains (s sub : String) : Bool :=
  decide (sub.data <:+: s.data)

/-- Python `s.split(sep)` for a one-character separator, on the character
list of the string: `"".split(sep) == [""]`, separators at the ends produce
empty components. -/
def pySplit : List Char → Char → List (List Char)
  | [], _ => [[]]
  | c :: rest, sep =>
    if c = sep then [] :: pySplit rest sep
    else
      match pySplit rest sep with
      | [] => [[c]]
      | t :: ts => (c :: t) :: ts

/-- Python `s.split(sep, 1)`: split at the first occurrence of the
separator only. -/
def pySplit1 (l : List Char) (sep : Char) : List (List Char) :=
  if sep ∈ l then [l.takeWhile (· != sep), (l.dropWhile (· != sep)).tail]
  else [l]

/-- Python `s.strip(chars)`: remove every character occurring in `chars`
from both ends of the string (a character-set strip, not a prefix strip). -/
def pyStrip (chars : List Char) (l : List Char) : List Char :=
  ((l.dropWhile (fun c => chars.contains c)).reverse.dropWhile
    (fun c => chars.contains c)).reverse

/-! ## Trigger classification (utils.py lines 20-23 and 227-265) -/

/-- The string constant CONFIG_FROM_PAYLOAD of utils.py. -/
def CONFIG_FROM_PAYLOAD : String := "CONFIG_FROM_PAYLOAD"

/-- The string constant CONFIG_FROM_S3FILE of utils.py. -/
def CONFIG_FROM_S3FILE : String := "CONFIG_FROM_S3FILE"

/-- The `_available_triggers` dictionary of utils.py line 20, as a lookup:
membership test and indexing combined. -/
def availableTriggers (eventSource : String) : Option String :=
  if eventSource = "aws:sqs" then some "s3-sqs"
  else if eventSource = "aws:kinesis" then some "kinesis-data-stream"
  else none

/-- The `kinesis` member of a lambda record, a dictionary of which only the
presence of the `data` key is inspected. -/
structure KinesisMember where
  data : Option String
deriving DecidableEq, Repr

/-- One record of a lambda trigger event, restricted to the members that
`get_trigger_type_and_config_source` inspects; a `none` field models absence
of that key in the record dictionary. `messageAttributes` is the list of
attribute keys present. -/
structure SqsRecord where
  body : Option String
  eventSource : Option String
  messageAttributes : Option (List String)
  kinesis : Option KinesisMember
deriving DecidableEq, Repr

/-- A lambda trigger event: the `Records` key, when present, holds the
record list. -/
structure LambdaEvent where
  records : Option (List SqsRecord)
deriving DecidableEq, Repr

/-- Lines 236-238 of utils.py: the record has a `body` key and the body
string contains all three replay markers as substrings. -/
def bodyHasReplayMarkers (r : SqsRecord) : Bool :=
  match r.body with
  | some event_body =>
    strContains event_body "output_type" && strContains event_body "output_args"
      && strContains event_body "event_payload"
  | none => false

/-- Left-to-right evaluation of the compound condition on lines 249-253 of
utils.py. The first conjunct is the equality test on the trigger type; the
second is `"kinesis" not in record`; when that holds, Python goes on to
evaluate `record["kinesis"]` inside the third conjunct, which raises
`KeyError` because the key is absent. When the `kinesis` key is present the
second conjunct is false and the conjunction short-circuits to false, so the
`data` sub-field is never actually inspected. -/
def kinesisRecordCondition (triggerType : String) (r : SqsRecord) :
    Except PyExc Bool :=
  if triggerType = "kinesis-data-stream" then
    match r.kinesis with
    | some _ => Except.ok false
    | none => Except.error (.keyError "kinesis")
  else Except.ok false

/-- Embedding of get_trigger_type_and_config_source (utils.py lines
227-265): classifies a raw trigger event and decides where the routing
configuration must be read from. -/
def get_trigger_type_and_config_source (event : LambdaEvent) :
    Except PyExc (String × String) :=
  match event.records with
  | none => Except.error (.exception "Not supported trigger")
  | some [] => Except.error (.exception "Not supported trigger")
  | some (r0 :: _) =>
    if bodyHasReplayMarkers r0 then Except.ok ("replay-sqs", CONFIG_FROM_PAYLOAD)
    else
      match r0.eventSource with
      | none => Except.error (.exception "Not supported trigger")
      | some event_source =>
        match availableTriggers event_source with
        | none => Except.error (.exception "Not supported trigger")
        | some trigger_type =>
          match kinesisRecordCondition trigger_type r0 with
          | Except.error e => Except.error e
          | Except.ok true => Except.error (.exception "Not supported trigger")
          | Except.ok false =>
            if trigger_type ≠ "s3-sqs" then
              Except.ok (trigger_type, CONFIG_FROM_S3FILE)
            else
              match r0.messageAttributes with
              | none => Except.ok (trigger_type, CONFIG_FROM_S3FILE)
              | some attrs =>
                if "originalEventSource" ∉ attrs then
                  Except.ok (trigger_type, CONFIG_FROM_S3FILE)
                else Except.ok ("s3-sqs", CONFIG_FROM_PAYLOAD)

/-- The record has a `messageAttributes` key whose dictionary contains the
`originalEventSource` key (lines 259-262 of utils.py). -/
def hasOriginalEventSourceAttr (r : SqsRecord) : Bool :=
  match r.messageAttributes with
  | some attrs => decide ("originalEventSource" ∈ attrs)
  | none => false

/-! ## Exception wrapping (utils.py lines 79-114) -/

/-- The lambda context object passed alongside the event; its contents are
never inspected by wrap_try_except. -/
structure LambdaContext where
  functionName : String
deriving DecidableEq, Repr

/-- The exception is one of the four classification/config exception classes
listed on line 95 of utils.py, which wrap_try_except re-raises. -/
def isRaisedOutward : PyExc → Bool
  | .triggerTypeExc _ => true
  | .configFileExc _ => true
  | .inputConfigExc _ => true
  | .outputConfigExc _ => true
  | _ => false

/-- The Python repr of an exception value, as interpolated on line 112 of
utils.py; for `otherExc` the repr is carried by the constructor. -/
def pyExcRepr : PyExc → String
  | .keyError k => "KeyError(\x27" ++ k ++ "\x27)"
  | .indexError => "IndexError(\x27list index out of range\x27)"
  | .valueError m => "ValueError(\x27" ++ m ++ "\x27)"
  | .exception m => "Exception(\x27" ++ m ++ "\x27)"
  | .triggerTypeExc m => "TriggerTypeException(\x27" ++ m ++ "\x27)"
  | .configFileExc m => "ConfigFileException(\x27" ++ m ++ "\x27)"
  | .inputConfigExc m => "InputConfigException(\x27" ++ m ++ "\x27)"
  | .outputConfigExc m => "OutputConfigException(\x27" ++ m ++ "\x27)"
  | .otherExc r => r

/-- Embedding of wrap_try_except (utils.py lines 79-114): the four
classification/config exceptions are re-raised, every other exception is
suppressed and turned into a descriptive string result; apm capture and
logging are side effects outside the model. -/
def wrap_try_except (func : LambdaEvent → LambdaContext → Except PyExc String) :
    LambdaEvent → LambdaContext → Except PyExc String :=
  fun lambda_event lambda_context =>
    match func lambda_event lambda_context with
    | Except.ok s => Except.ok s
    | Except.error e =>
      if isRaisedOutward e then Except.error e
      else Except.ok ("exception raised: " ++ pyExcRepr e)

/-! ## S3 URI parsing (utils.py lines 192-206) -/

/-- Embedding of from_s3_uri_to_bucket_name_and_object_key (utils.py lines
192-206). Line 200 calls Python `str.strip("s3://")`, which removes the
character set of the argument from both ends, not the prefix string; the
embedding reproduces that. The result of `split("/", 1)` has at most two
parts, so line 206 returns the pair of parts when there are two of them. -/
def from_s3_uri_to_bucket_name_and_object_key (s3_uri : String) :
    Except PyExc (String × String) :=
  if ¬ ("s3://".data.isPrefixOf s3_uri.data) then
    Except.error (.valueError ("Invalid s3 uri provided: \x60" ++ s3_uri ++ "\x60"))
  else
    let stripped_s3_uri := pyStrip "s3://".data s3_uri.data
    match pySplit1 stripped_s3_uri '/' with
    | [bucket, key] => Except.ok (String.mk bucket, String.mk key)
    | _ => Except.error (.valueError ("Invalid s3 uri provided: \x60" ++ s3_uri ++ "\x60"))

/-! ## Kinesis ARN parsing (utils.py lines 217-224) -/

/-- Embedding of get_kinesis_stream_name_type_and_region_from_arn (utils.py
lines 217-224). Python evaluates the returned tuple left to right:
`stream_components[0]`, `stream_components[1]`, then `arn_components[3]`,
each raising IndexError when out of range; `arn_components[-1]` is the last
element of a split result, which is never empty. -/
def get_kinesis_stream_name_type_and_region_from_arn (kinesis_stream_arn : String) :
    Except PyExc (String × String × String) :=
  let arn_components := pySplit kinesis_stream_arn.data ':'
  match arn_components.getLast? with
  | none => Except.error .indexError
  | some lastComponent =>
    let stream_components := pySplit lastComponent '/'
    match stream_components.get? 0 with
    | none => Except.error .indexError
    | some nameComp =>
      match stream_components.get? 1 with
      | none => Except.error .indexError
      | some typeComp =>
        match arn_components.get? 3 with
        | none => Except.error .indexError
        | some regionComp =>
          Except.ok (String.mk nameComp, String.mk typeComp, String.mk regionComp)

/-! ## Replay handler (utils.py lines 268-295) -/

/-- JSON values, used for the message bodies assembled by the replay
handler; serialization by `json.dumps` is an external collaborator, so a
message body is modelled as the JSON object itself, with object fields in
insertion order (which `json.dumps` preserves). -/
inductive Json where
  | null
  | bool (b : Bool)
  | num (n : Int)
  | str (s : String)
  | arr (elems : List Json)
  | obj (fields : List (String × Json))
deriving Repr

/-- One SQS message attribute value: a string value with its data type. -/
structure MessageAttribute where
  stringValue : String
  dataType : String
deriving DecidableEq, Repr

/-- One message sent by `sqs_client.send_message`: destination queue URL,
JSON body and message attributes. -/
structure SqsSentMessage where
  queueUrl : String
  messageBody : Json
  messageAttributes : List (String × MessageAttribute)

/-- The parsed-config Input definition, restricted to the two fields that
ReplayEventHandler reads (`share.Input` itself is an external collaborator). -/
structure Input where
  id : String
  type : String
deriving DecidableEq, Repr

/-- The ReplayEventHandler state: the fields stored by its constructor
(utils.py lines 269-272). -/
structure ReplayEventHandler where
  config_yaml : String
  event_input_id : String
  event_input_type : String
deriving DecidableEq, Repr

/-- Embedding of ReplayEventHandler.__init__ (utils.py lines 269-272). -/
def ReplayEventHandler.ofInput (config_yaml : String) (event_input : Input) :
    ReplayEventHandler :=
  ⟨config_yaml, event_input.id, event_input.type⟩

/-- Embedding of ReplayEventHandler.replay_handler (utils.py lines 274-295),
with the process environment passed explicitly; the result is the list of
messages the call sends on the SQS replay queue (one `send_message` call). -/
def ReplayEventHandler.replay_handler (self : ReplayEventHandler)
    (env : String → Option String) (output_type : String)
    (output_args event_payload : Json) : Except PyExc (List SqsSentMessage) :=
  match env "SQS_REPLAY_URL" with
  | none => Except.error (.keyError "SQS_REPLAY_URL")
  | some sqs_replay_queue =>
    let message_payload : Json := Json.obj
      [("output_type", Json.str output_type),
       ("output_args", output_args),
       ("event_payload", event_payload),
       ("event_input_id", Json.str self.event_input_id),
       ("event_input_type", Json.str self.event_input_type)]
    Except.ok [{ queueUrl := sqs_replay_queue
                 messageBody := message_payload
                 messageAttributes := [("config", ⟨self.config_yaml, "String"⟩)] }]

/-! ## SHA-256 (the `hashlib.sha256(...).hexdigest()` calls of utils.py),
implemented over `Nat` with explicit reduction modulo 2^32. -/

/-- Truncation to a 32-bit word. -/
def w32 (n : Nat) : Nat := n % 4294967296

/-- Right rotation of a 32-bit word by `n` bits. -/
def rotr32 (n x : Nat) : Nat := w32 ((x >>> n) ||| (x <<< (32 - n)))

/-- Bitwise complement of a 32-bit word. -/
def bnot32 (x : Nat) : Nat := x ^^^ 4294967295

/-- The SHA-256 choice function. -/
def shaCh (x y z : Nat) : Nat := (x &&& y) ^^^ (bnot32 x &&& z)

/-- The SHA-256 majority function. -/
def shaMaj (x y z : Nat) : Nat := (x &&& y) ^^^ (x &&& z) ^^^ (y &&& z)

/-- The SHA-256 big sigma-0 function. -/
def bigSigma0 (x : Nat) : Nat := rotr32 2 x ^^^ rotr32 13 x ^^^ rotr32 22 x

/-- The SHA-256 big sigma-1 function. -/
def bigSigma1 (x : Nat) : Nat := rotr32 6 x ^^^ rotr32 11 x ^^^ rotr32 25 x

/-- The SHA-256 small sigma-0 function. -/
def smallSigma0 (x : Nat) : Nat := rotr32 7 x ^^^ rotr32 18 x ^^^ (x >>> 3)

/-- The SHA-256 small sigma-1 function. -/
def smallSigma1 (x : Nat) : Nat := rotr32 17 x ^^^ rotr32 19 x ^^^ (x >>> 10)

/-- The 64 SHA-256 round constants, written in decimal. -/
def sha256K : List Nat :=
  [1116352408, 1899447441, 3049323471, 3921009573, 961987163,
   1508970993, 2453635748, 2870763221, 3624381080, 310598401,
   607225278, 1426881987, 1925078388, 2162078206, 2614888103,
   3248222580, 3835390401, 4022224774, 264347078, 604807628,
   770255983, 1249150122, 1555081692, 1996064986, 2554220882,
   2821834349, 2952996808, 3210313671, 3336571891, 3584528711,
   113926993, 338241895, 666307205, 773529912, 1294757372,
   1396182291, 1695183700, 1986661051, 2177026350, 2456956037,
   2730485921, 2820302411, 3259730800, 3345764771, 3516065817,
   3600352804, 4094571909, 275423344, 430227734, 506948616,
   659060556, 883997877, 958139571, 1322822218, 1537002063,
   1747873779, 1955562222, 2024104815, 2227730452, 2361852424,
   2428436474, 2756734187, 3204031479, 3329325298]

/-- The SHA-256 initial hash value, written in decimal. -/
def sha256H0 : List Nat :=
  [1779033703, 3144134277, 1013904242, 2773480762,
   1359893119, 2600822924, 528734635, 1541459225]

/-- Big-endian byte decomposition of a number into `k` bytes. -/
def toBytesBE (k n : Nat) : List Nat :=
  (List.range k).map (fun i => (n >>> (8 * (k - 1 - i))) % 256)

/-- SHA-256 message padding: append the 0x80 byte, zero bytes up to 56
modulo 64, then the bit length as an 8-byte big-endian number. -/
def sha256Pad (msg : List Nat) : List Nat :=
  msg ++ 128 :: (List.replicate ((119 - msg.length % 64) % 64) 0
    ++ toBytesBE 8 (8 * msg.length))

/-- Group a byte list into big-endian 32-bit words. -/
def bytesToWords : List Nat → List Nat
  | b0 :: b1 :: b2 :: b3 :: rest =>
    (((b0 * 256 + b1) * 256 + b2) * 256 + b3) :: bytesToWords rest
  | _ => []

/-- Split a list into its consecutive 64-element chunks. -/
def chunk64 (l : List Nat) : List (List Nat) :=
  (List.range (l.length / 64)).map (fun i => (l.drop (64 * i)).take 64)

/-- One step of the SHA-256 message-schedule extension: append the next
scheduled word. -/
def scheduleStep (acc : List Nat) (_i : Nat) : List Nat :=
  let n := acc.length
  acc ++ [w32 (smallSigma1 (acc.getD (n - 2) 0) + acc.getD (n - 7) 0
    + smallSigma0 (acc.getD (n - 15) 0) + acc.getD (n - 16) 0)]

/-- Extend the 16 words of a block to the 64-word message schedule. -/
def extendSchedule (ws : List Nat) : List Nat :=
  (List.range 48).foldl scheduleStep ws

/-- The eight working variables of the SHA-256 compression loop. -/
structure Sha256State where
  a : Nat
  b : Nat
  c : Nat
  d : Nat
  e : Nat
  f : Nat
  g : Nat
  hh : Nat
deriving DecidableEq, Repr

/-- One round of the SHA-256 compression loop, consuming a round constant
paired with a scheduled word. -/
def roundStep (st : Sha256State) (kw : Nat × Nat) : Sha256State :=
  let t1 := w32 (st.hh + bigSigma1 st.e + shaCh st.e st.f st.g + kw.1 + kw.2)
  let t2 := w32 (bigSigma0 st.a + shaMaj st.a st.b st.c)
  ⟨w32 (t1 + t2), st.a, st.b, st.c, w32 (st.d + t1), st.e, st.f, st.g⟩

/-- Compress one 64-byte block into the running eight-word hash value. -/
def compressBlock (hv : List Nat) (block : List Nat) : List Nat :=
  let ws := extendSchedule (bytesToWords block)
  let st0 : Sha256State :=
    ⟨hv.getD 0 0, hv.getD 1 0, hv.getD 2 0, hv.getD 3 0,
     hv.getD 4 0, hv.getD 5 0, hv.getD 6 0, hv.getD 7 0⟩
  let fin := (sha256K.zip ws).foldl roundStep st0
  [w32 (hv.getD 0 0 + fin.a), w32 (hv.getD 1 0 + fin.b),
   w32 (hv.getD 2 0 + fin.c), w32 (hv.getD 3 0 + fin.d),
   w32 (hv.getD 4 0 + fin.e), w32 (hv.getD 5 0 + fin.f),
   w32 (hv.getD 6 0 + fin.g), w32 (hv.getD 7 0 + fin.hh)]

/-- The SHA-256 digest (32 bytes) of a byte list. -/
def sha256Bytes (msg : List Nat) : List Nat :=
  ((chunk64 (sha256Pad msg)).foldl compressBlock sha256H0).flatMap (toBytesBE 4)

/-- UTF-8 encoding of one character as bytes. -/
def utf8EncodeChar (c : Char) : List Nat :=
  let n := c.toNat
  if n < 128 then [n]
  else if n < 2048 then [192 ||| (n >>> 6), 128 ||| (n &&& 63)]
  else if n < 65536 then
    [224 ||| (n >>> 12), 128 ||| ((n >>> 6) &&& 63), 128 ||| (n &&& 63)]
  else
    [240 ||| (n >>> 18), 128 ||| ((n >>> 12) &&& 63),
     128 ||| ((n >>> 6) &&& 63), 128 ||| (n &&& 63)]

/-- Python `s.encode("UTF-8")` as a byte list. -/
def utf8Bytes (s : String) : List Nat := s.data.flatMap utf8EncodeChar

/-- The lowercase hexadecimal digit for a value below 16. -/
def hexChar (n : Nat) : Char := "0123456789abcdef".data.getD n '0'

/-- Two lowercase hex characters for one byte. -/
def byteToHex (b : Nat) : List Char := [hexChar (b / 16), hexChar (b % 16)]

/-- Python `hashlib.sha256(s.encode("UTF-8")).hexdigest()`, as a character
list. -/
def sha256HexChars (s : String) : List Char :=
  (sha256Bytes (utf8Bytes s)).flatMap byteToHex

/-! ## Decimal formatting (the f-string `{offset:012d}` of utils.py) -/

/-- The decimal digit character for a value below 10. -/
def decDigit (n : Nat) : Char := "0123456789".data.getD n '0'

/-- Decimal digits of a positive number, most significant first, driven by a
fuel argument that bounds the recursion depth. -/
def natToDecAux : Nat → Nat → List Char
  | 0, _ => []
  | fuel + 1, n =>
    if n = 0 then [] else natToDecAux fuel (n / 10) ++ [decDigit (n % 10)]

/-- Decimal digits of a natural number, most significant first. -/
def natToDec (n : Nat) : List Char :=
  if n = 0 then ['0'] else natToDecAux n n

/-- Python f-string formatting `{n:012d}` of an int: zero-padded to a
minimum width of 12 characters, the sign included in the width. -/
def pyFormat012 (n : Int) : List Char :=
  if n < 0 then
    '-' :: (List.replicate (11 - (natToDec n.natAbs).length) '0' ++ natToDec n.natAbs)
  else
    List.replicate (12 - (natToDec n.toNat).length) '0' ++ natToDec n.toNat

/-! ## Event ID generators (utils.py lines 298-326) -/

/-- The fields of an event payload read by s3_object_id:
`fields.log.offset`, `fields.aws.s3.bucket.arn`, `fields.aws.s3.object.key`. -/
structure S3EventFields where
  offset : Int
  bucket_arn : String
  object_key : String
deriving DecidableEq, Repr

/-- Embedding of s3_object_id (utils.py lines 298-311). -/
def s3_object_id (event_payload : S3EventFields) : String :=
  let src := event_payload.bucket_arn ++ event_payload.object_key
  String.mk ((sha256HexChars src).take 10 ++ '-' :: pyFormat012 event_payload.offset)

/-- The fields of an event payload read by kinesis_record_id:
`fields.log.offset` and the `fields.aws.kinesis` members `type`, `name` and
`sequence_number`. -/
structure KinesisEventFields where
  offset : Int
  stream_type : String
  stream_name : String
  sequence_number : String
deriving DecidableEq, Repr

/-- Embedding of kinesis_record_id (utils.py lines 314-326). -/
def kinesis_record_id (event_payload : KinesisEventFields) : String :=
  let src := event_payload.stream_type ++ event_payload.stream_name ++ "-"
    ++ event_payload.sequence_number
  String.mk ((sha256HexChars src).take 10 ++ '-' :: pyFormat012 event_payload.offset)

/-- The spec-side formatting of claims C1 and C7: the offset zero-padded to
12 decimal digits. -/
def specZeroPad12 (n : Nat) : List Char :=
  List.replicate (12 - (natToDec n).length) '0' ++ natToDec n

/-! ## Claim-level descriptions of ARN components (claim C10) -/

/-- The last colon-separated component of an ARN string. -/
def lastColonComponent (arn : String) : List Char :=
  ((pySplit arn.data ':').getLast?).getD []

/-- The text of a character list before its first slash. -/
def textBeforeFirstSlash (l : List Char) : List Char :=
  l.takeWhile (· != '/')

/-- The text of a character list between its first and second slash; when
exactly one slash is present this is the whole text after it. -/
def textBetweenFirstSlashes (l : List Char) : List Char :=
  ((l.dropWhile (· != '/')).tail).takeWhile (· != '/')

/-! ## Elasticsearch shipper buffer model.

The ElasticsearchShipper source (`shippers/es.py`) is not under `src/`;
only its tests are. Its send/flush buffer behaviour is therefore modelled
from spec section 4.6 and validated against `src/tests/shippers/test_es.py`. -/

/-- Modelled from the spec: one pending bulk action of the missing
`shippers/es.py`, abstracted to its payload. -/
abbrev BulkAction := String

/-- Modelled from the spec: the outcome the backend reports for one bulk
call of the missing `shippers/es.py` — the indices of the rejected actions,
empty when the call fully succeeds. -/
abbrev BulkOutcome := List Nat

/-- Modelled from the spec: the state of the missing
`shippers/es.py` ElasticsearchShipper relevant to the buffer invariant —
the pending action buffer, the configured batch-size threshold, and the
actions routed to the replay handler so far. -/
structure EsShipperState where
  bulk_actions : List BulkAction
  batch_max_actions : Nat
  replayed : List BulkAction
deriving Repr

/-- Modelled from the spec: flush of the missing `shippers/es.py` performs
one bulk call over the entire buffer, routes each rejected action to the
replay handler, and clears the buffer unconditionally afterward, including
when it was already empty (a no-op, not an error). -/
def esFlush (s : EsShipperState) (outcome : BulkOutcome) : EsShipperState :=
  { s with
    bulk_actions := []
    replayed := s.replayed ++ outcome.filterMap (fun i => s.bulk_actions.get? i) }

/-- Modelled from the spec: send of the missing `shippers/es.py` appends
the action to the buffer and triggers an implicit flush exactly when the
buffer size reaches the batch-size threshold (threshold 0 = flush after
every send). -/
def esSend (s : EsShipperState) (a : BulkAction) (outcome : BulkOutcome) :
    EsShipperState :=
  let s' := { s with bulk_actions := s.bulk_actions ++ [a] }
  if s.batch_max_actions = 0 ∨ s.batch_max_actions ≤ s'.bulk_actions.length then
    esFlush s' outcome
  else s'

/-- One operation on the shipper: a send (with the outcome the backend
would report should an implicit flush trigger) or an explicit flush. -/
inductive ShipperOp where
  | send (a : BulkAction) (outcome : BulkOutcome)
  | flushOp (outcome : BulkOutcome)

/-- Apply one operation to the shipper state. -/
def esStep (s : EsShipperState) : ShipperOp → EsShipperState
  | .send a outcome => esSend s a outcome
  | .flushOp outcome => esFlush s outcome

/-- Run a sequence of operations from a fresh shipper with the given
batch-size threshold. -/
def esRun (threshold : Nat) (ops : List ShipperOp) : EsShipperState :=
  ops.foldl esStep ⟨[], threshold, []⟩

/-! ## Lemmas about the Python string primitives -/

/-- Python split never returns an empty list of components. -/
theorem pySplit_ne_nil (l : List Char) (sep : Char) : pySplit l sep ≠ [] := by
  induction l with
  | nil => simp [pySplit]
  | cons c rest ih =>
    simp only [pySplit]
    split
    · simp
    · cases h : pySplit rest sep with
      | nil => exact absurd h ih
      | cons t ts => simp [h]

/-- A split at a separator absent from the list is the singleton of the
whole list. -/
theorem pySplit_not_mem {l : List Char} {sep : Char} (h : sep ∉ l) :
    pySplit l sep = [l] := by
  induction l with
  | nil => rfl
  | cons c rest ih =>
    have hc : ¬ c = sep := by
      rintro rfl
      exact h (List.mem_cons_self _ _)
    have hr : sep ∉ rest := fun m => h (List.mem_cons_of_mem _ m)
    simp only [pySplit, if_neg hc, ih hr]

/-- A split at a present separator peels off the text before its first
occurrence and splits the remainder. -/
theorem pySplit_mem {l : List Char} {sep : Char} (h : sep ∈ l) :
    pySplit l sep
      = l.takeWhile (· != sep) :: pySplit ((l.dropWhile (· != sep)).tail) sep := by
  induction l with
  | nil => cases h
  | cons c rest ih =>
    by_cases hc : c = sep
    · subst hc
      simp [pySplit, List.takeWhile_cons, List.dropWhile_cons]
    · have hr : sep ∈ rest := by
        rcases List.mem_cons.mp h with h | h
        · exact absurd h.symm hc
        · exact h
      have hb : (c != sep) = true := bne_iff_ne.mpr hc
      simp only [pySplit, if_neg hc, ih hr, List.takeWhile_cons, List.dropWhile_cons, hb,
        if_true, List.tail_cons]

/-- The first component of a Python split is the text before the first
separator. -/
theorem pySplit_get_zero (l : List Char) (sep : Char) :
    (pySplit l sep).get? 0 = some (l.takeWhile (· != sep)) := by
  by_cases h : sep ∈ l
  · rw [pySplit_mem h, List.get?_cons_zero]
  · rw [pySplit_not_mem h, List.get?_cons_zero]
    rw [List.takeWhile_eq_self_iff.mpr]
    intro x hx
    exact bne_iff_ne.mpr (fun e => h (e ▸ hx))

/-- The second component of a Python split at a present separator is the
text between the first and second occurrences. -/
theorem pySplit_get_one {l : List Char} {sep : Char} (h : sep ∈ l) :
    (pySplit l sep).get? 1
      = some (((l.dropWhile (· != sep)).tail).takeWhile (· != sep)) := by
  rw [pySplit_mem h, List.get?_cons_succ, pySplit_get_zero]

/-- A Python split at an absent separator has no second component. -/
theorem pySplit_get_one_none {l : List Char} {sep : Char} (h : sep ∉ l) :
    (pySplit l sep).get? 1 = none := by
  rw [pySplit_not_mem h]
  rfl

/-! ## Lemmas about decimal digit counts -/

/-- A number below the k-th power of ten prints in at most k digits. -/
theorem natToDecAux_length_le {fuel n k : Nat} (hn : n ≤ fuel) (h : n < 10 ^ k) :
    (natToDecAux fuel n).length ≤ k := by
  induction fuel generalizing n k with
  | zero =>
    have hz : n = 0 := Nat.le_zero.mp hn
    subst hz
    simp [natToDecAux]
  | succ fuel ih =>
    by_cases hz : n = 0
    · subst hz
      simp [natToDecAux]
    · have hk : k ≠ 0 := by
        rintro rfl
        exact hz (by omega)
      obtain ⟨j, rfl⟩ := Nat.exists_eq_succ_of_ne_zero hk
      have hdiv : n / 10 < 10 ^ j := by
        apply Nat.div_lt_of_lt_mul
        calc n < 10 ^ (j + 1) := h
          _ = 10 * 10 ^ j := by ring
      have hfuel : n / 10 ≤ fuel := by
        have hlt : n / 10 < n := Nat.div_lt_self (Nat.pos_of_ne_zero hz) (by omega)
        omega
      have hrec := ih hfuel hdiv
      simp only [natToDecAux, if_neg hz, List.length_append, List.length_cons,
        List.length_nil]
      omega

/-- The decimal print of a number below the k-th power of ten (k positive)
has at most k characters. -/
theorem natToDec_length_le {n k : Nat} (hk : 1 ≤ k) (h : n < 10 ^ k) :
    (natToDec n).length ≤ k := by
  unfold natToDec
  split
  · simpa using hk
  · exact natToDecAux_length_le le_rfl h

/-- Zero-padding to 12 digits yields exactly 12 characters for numbers
below 10^12. -/
theorem specZeroPad12_length {n : Nat} (h : n < 1000000000000) :
    (specZeroPad12 n).length = 12 := by
  have hle : (natToDec n).length ≤ 12 := by
    refine natToDec_length_le (by omega) ?_
    norm_num
    omega
  simp only [specZeroPad12, List.length_append, List.length_replicate]
  omega

/-! ## Claims about the trigger classifier -/

/-- C2: for every event batch whose first record has a body containing all
three of output_type, output_args and event_payload (as substrings),
get_trigger_type_and_config_source returns the replay trigger type
"replay-sqs" together with the CONFIG_FROM_PAYLOAD config source,
regardless of any other trigger fields (eventSource, messageAttributes,
kinesis) present in the record. -/
theorem replay_trigger_classification (event : LambdaEvent) (r0 : SqsRecord)
    (rs : List SqsRecord) (hrec : event.records = some (r0 :: rs))
    (hbody : bodyHasReplayMarkers r0 = true) :
    get_trigger_type_and_config_source event
      = Except.ok ("replay-sqs", CONFIG_FROM_PAYLOAD) := by
  unfold get_trigger_type_and_config_source
  rw [hrec]
  simp [hbody]

/-- Witness for C2 at a concrete event whose record also carries an
eventSource, message attributes and a kinesis member. -/
theorem replay_trigger_classification_witness :
    get_trigger_type_and_config_source
        ⟨some [⟨some "output_type output_args event_payload",
          some "aws:kinesis", some ["originalEventSource"], some ⟨some "xyz"⟩⟩]⟩
      = Except.ok ("replay-sqs", CONFIG_FROM_PAYLOAD) :=
  replay_trigger_classification _ _ [] rfl (by decide)

/-- C3 (code evidence): on a first record with the aws:kinesis event source
and no `kinesis` member, get_trigger_type_and_config_source raises KeyError
(Python evaluates `event["Records"][0]["kinesis"]` inside the
short-circuiting condition of utils.py line 252) instead of the
unsupported-trigger Exception, and on a record whose `kinesis` member lacks
the `data` member it returns a classification instead of failing: the `and`
on line 251 makes the `raise` on line 254 unreachable. -/
theorem kinesis_subfield_check_is_broken :
    get_trigger_type_and_config_source
        ⟨some [⟨none, some "aws:kinesis", none, none⟩]⟩
        = Except.error (.keyError "kinesis")
      ∧ get_trigger_type_and_config_source
          ⟨some [⟨none, some "aws:kinesis", none, some ⟨none⟩⟩]⟩
        = Except.ok ("kinesis-data-stream", CONFIG_FROM_S3FILE) := by
  constructor <;> rfl

/-- C8: for a batch classified as object-storage-via-queue (first record
carries the aws:sqs event source and its body lacks the replay markers),
get_trigger_type_and_config_source returns CONFIG_FROM_PAYLOAD exactly when
the record's message attributes contain the originalEventSource key, and
CONFIG_FROM_S3FILE in every other case. -/
theorem s3_sqs_config_source (event : LambdaEvent) (r0 : SqsRecord)
    (rs : List SqsRecord) (hrec : event.records = some (r0 :: rs))
    (hbody : bodyHasReplayMarkers r0 = false)
    (hsrc : r0.eventSource = some "aws:sqs") :
    (get_trigger_type_and_config_source event
        = Except.ok ("s3-sqs", CONFIG_FROM_PAYLOAD)
      ↔ hasOriginalEventSourceAttr r0 = true)
    ∧ (hasOriginalEventSourceAttr r0 = false →
      get_trigger_type_and_config_source event
        = Except.ok ("s3-sqs", CONFIG_FROM_S3FILE)) := by
  unfold get_trigger_type_and_config_source
  rw [hrec]
  simp only [hbody, Bool.false_eq_true, if_false, hsrc]
  unfold hasOriginalEventSourceAttr
  cases hma : r0.messageAttributes with
  | none =>
    simp [availableTriggers, kinesisRecordCondition, CONFIG_FROM_PAYLOAD,
      CONFIG_FROM_S3FILE]
  | some attrs =>
    by_cases hm : "originalEventSource" ∈ attrs
    · simp [availableTriggers, kinesisRecordCondition, hm]
    · simp [availableTriggers, kinesisRecordCondition, hm, CONFIG_FROM_PAYLOAD,
        CONFIG_FROM_S3FILE]

/-- Witness for C8 at a concrete s3-sqs event carrying the
originalEventSource marker. -/
theorem s3_sqs_config_source_witness :
    get_trigger_type_and_config_source
        ⟨some [⟨some "ordinary notification body", some "aws:sqs",
          some ["originalEventSource"], none⟩]⟩
      = Except.ok ("s3-sqs", CONFIG_FROM_PAYLOAD) :=
  (s3_sqs_config_source _ _ [] rfl (by decide) rfl).1.mpr (by decide)

/-! ## Claim about the exception wrapper -/

/-- C5: the wrapper built by wrap_try_except re-raises the four
classification/config exceptions unchanged, converts any other raised
exception e into the normal result "exception raised: " followed by the
representation of e, and passes through normal results unchanged. -/
theorem wrap_try_except_spec
    (func : LambdaEvent → LambdaContext → Except PyExc String)
    (ev : LambdaEvent) (ctx : LambdaContext) :
    (∀ e, func ev ctx = Except.error e → isRaisedOutward e = true →
      wrap_try_except func ev ctx = Except.error e)
    ∧ (∀ e, func ev ctx = Except.error e → isRaisedOutward e = false →
      wrap_try_except func ev ctx
        = Except.ok ("exception raised: " ++ pyExcRepr e))
    ∧ (∀ s, func ev ctx = Except.ok s →
      wrap_try_except func ev ctx = Except.ok s) := by
  refine ⟨fun e he hr => ?_, fun e he hr => ?_, fun s hs => ?_⟩
  · simp [wrap_try_except, he, hr]
  · simp [wrap_try_except, he, hr]
  · simp [wrap_try_except, hs]

/-- Witness for C5: a handler raising a generic RuntimeError is suppressed
into a string-described result. -/
theorem wrap_try_except_witness :
    wrap_try_except
        (fun _ _ => Except.error (.otherExc "RuntimeError(\x27boom\x27)"))
        ⟨none⟩ ⟨"fn"⟩
      = Except.ok ("exception raised: "
          ++ pyExcRepr (.otherExc "RuntimeError(\x27boom\x27)")) :=
  (wrap_try_except_spec _ ⟨none⟩ ⟨"fn"⟩).2.1 _ rfl rfl

/-! ## Claim about S3 URI parsing -/

/-- C4 (code evidence): utils.py line 200 calls `str.strip("s3://")`, which
removes the characters s, 3, colon and slash from both ends rather than the
scheme prefix. On "s3://b/s" — bucket "b" and key "s", both segments
present — the function raises ValueError instead of returning ("b", "s");
on "s3://sb/k" it returns ("b", "k"), corrupting the bucket name "sb". -/
theorem s3_uri_strip_bug :
    from_s3_uri_to_bucket_name_and_object_key "s3://b/s"
        = Except.error (.valueError "Invalid s3 uri provided: \x60s3://b/s\x60")
      ∧ from_s3_uri_to_bucket_name_and_object_key "s3://sb/k"
        = Except.ok ("b", "k") := by
  constructor <;> rfl

/-! ## Claim about kinesis ARN parsing -/

/-- C10: for every ARN with at least four colon-separated components whose
last component contains a slash,
get_kinesis_stream_name_type_and_region_from_arn returns the triple (text
of the last component before its first slash, text between its first and
second slash, fourth colon component); on every ARN with fewer than four
colon components or no slash in the last component, the indexing raises
IndexError instead of returning a value. -/
theorem get_kinesis_arn_spec (arn : String) :
    (4 ≤ (pySplit arn.data ':').length → '/' ∈ lastColonComponent arn →
      get_kinesis_stream_name_type_and_region_from_arn arn
        = Except.ok (String.mk (textBeforeFirstSlash (lastColonComponent arn)),
            String.mk (textBetweenFirstSlashes (lastColonComponent arn)),
            String.mk (((pySplit arn.data ':').get? 3).getD [])))
    ∧ ((pySplit arn.data ':').length < 4 ∨ '/' ∉ lastColonComponent arn →
      get_kinesis_stream_name_type_and_region_from_arn arn
        = Except.error PyExc.indexError) := by
  have hne : pySplit arn.data ':' ≠ [] := pySplit_ne_nil _ _
  obtain ⟨L, hL⟩ : ∃ L, (pySplit arn.data ':').getLast? = some L := by
    cases hgl : (pySplit arn.data ':').getLast? with
    | none => exact absurd (List.getLast?_eq_none_iff.mp hgl) hne
    | some L => exact ⟨L, rfl⟩
  have hLc : lastColonComponent arn = L := by
    rw [lastColonComponent, hL]
    rfl
  constructor
  · intro h4 hs
    rw [hLc] at hs
    obtain ⟨x, hx⟩ : ∃ x, (pySplit arn.data ':').get? 3 = some x := by
      have h3 : 3 < (pySplit arn.data ':').length := by omega
      exact ⟨_, List.get?_eq_get h3⟩
    simp only [get_kinesis_stream_name_type_and_region_from_arn, hL,
      pySplit_get_zero, pySplit_get_one hs, hx, hLc, textBeforeFirstSlash,
      textBetweenFirstSlashes, Option.getD_some]
  · intro hbad
    by_cases hs : '/' ∈ L
    · have hlen : (pySplit arn.data ':').length < 4 := by
        rcases hbad with h | h
        · exact h
        · exact absurd (hLc ▸ hs) h
      have hx : (pySplit arn.data ':').get? 3 = none :=
        List.get?_eq_none.mpr (by omega)
      simp only [get_kinesis_stream_name_type_and_region_from_arn, hL,
        pySplit_get_zero, pySplit_get_one hs, hx]
    · simp only [get_kinesis_stream_name_type_and_region_from_arn, hL,
        pySplit_get_zero, pySplit_get_one_none hs]

/-- Witness for C10 at a well-formed kinesis stream ARN. -/
theorem get_kinesis_arn_witness :
    get_kinesis_stream_name_type_and_region_from_arn
        "arn:aws:kinesis:eu-central-1:123456789:stream/test-esf-stream"
      = Except.ok ("stream", "test-esf-stream", "eu-central-1") := by
  rw [(get_kinesis_arn_spec
    "arn:aws:kinesis:eu-central-1:123456789:stream/test-esf-stream").1
    (by decide) (by decide)]
  rfl

/-! ## Claim about the replay handler -/

/-- C9: replay_handler on a handler built from config text c and an input
with id i and type t enqueues exactly one message on the replay queue; its
body is the JSON object with fields output_type, output_args,
event_payload, event_input_id = i and event_input_type = t, and it carries
the single string message attribute "config" holding c. -/
theorem replay_handler_spec (c : String) (inp : Input)
    (env : String → Option String) (u output_type : String)
    (output_args event_payload : Json)
    (henv : env "SQS_REPLAY_URL" = some u) :
    (ReplayEventHandler.ofInput c inp).replay_handler env output_type
        output_args event_payload
      = Except.ok [{ queueUrl := u
                     messageBody := Json.obj
                       [("output_type", Json.str output_type),
                        ("output_args", output_args),
                        ("event_payload", event_payload),
                        ("event_input_id", Json.str inp.id),
                        ("event_input_type", Json.str inp.type)]
                     messageAttributes := [("config", ⟨c, "String"⟩)] }] := by
  simp [ReplayEventHandler.replay_handler, ReplayEventHandler.ofInput, henv]

/-- Witness for C9 with a concrete environment, config text and input. -/
theorem replay_handler_witness :
    (ReplayEventHandler.ofInput "inputs: []" ⟨"arn:input", "s3-sqs"⟩).replay_handler
        (fun k => if k = "SQS_REPLAY_URL" then some "https://sqs/replay" else none)
        "elasticsearch" (Json.obj []) (Json.obj [])
      = Except.ok [{ queueUrl := "https://sqs/replay"
                     messageBody := Json.obj
                       [("output_type", Json.str "elasticsearch"),
                        ("output_args", Json.obj []),
                        ("event_payload", Json.obj []),
                        ("event_input_id", Json.str "arn:input"),
                        ("event_input_type", Json.str "s3-sqs")]
                     messageAttributes := [("config", ⟨"inputs: []", "String"⟩)] }] :=
  replay_handler_spec "inputs: []" ⟨"arn:input", "s3-sqs"⟩ _ _ "elasticsearch"
    (Json.obj []) (Json.obj []) rfl

/-! ## Claims about the event ID generators -/

set_option maxRecDepth 10000 in
/-- Validation of the SHA-256 embedding against the standard test vector
for "abc". -/
theorem sha256_abc_test_vector :
    String.mk (sha256HexChars "abc")
      = "ba7816bf8f01cfea414140de5dae2223b00361a396177a9cb410ff61f20015ad" := by
  decide

set_option maxRecDepth 10000 in
/-- The concrete digest behind the literal case of claim C1. -/
theorem sha256_bk_vector :
    String.mk (sha256HexChars "arn:aws:s3:::bk")
      = "13c8a0d901d1704c95d4e69e6ef80639986f8edd4ec8cf8f24788103eb7edb65" := by
  decide

/-- C1: for every object-storage document with bucket ARN b, key k and
offset o with 0 ≤ o < 10^12, s3_object_id returns the first 10 hex
characters of SHA-256(b ++ k), a dash, and o zero-padded to 12 decimal
digits (exactly 12 characters); in particular at bucket_arn
"arn:aws:s3:::b", key "k", offset 10 it equals the first 10 hex characters
of SHA-256("arn:aws:s3:::bk") followed by "-000000000010". -/
theorem s3_object_id_spec (b k : String) (o : Int) (h0 : 0 ≤ o)
    (h1 : o < 1000000000000) :
    (s3_object_id ⟨o, b, k⟩
        = String.mk ((sha256HexChars (b ++ k)).take 10
            ++ '-' :: specZeroPad12 o.toNat))
      ∧ (specZeroPad12 o.toNat).length = 12
      ∧ s3_object_id ⟨10, "arn:aws:s3:::b", "k"⟩
        = String.mk ((sha256HexChars "arn:aws:s3:::bk").take 10
            ++ '-' :: "000000000010".data) := by
  have hfmt : pyFormat012 o = specZeroPad12 o.toNat := by
    unfold pyFormat012 specZeroPad12
    rw [if_neg (not_lt.mpr h0)]
  refine ⟨?_, ?_, ?_⟩
  · simp only [s3_object_id, hfmt]
  · exact specZeroPad12_length (by omega)
  · rfl

/-- Witness for C1: the theorem applied at the claim's literal input. -/
theorem s3_object_id_witness :
    s3_object_id ⟨10, "arn:aws:s3:::b", "k"⟩
      = String.mk ((sha256HexChars ("arn:aws:s3:::b" ++ "k")).take 10
          ++ '-' :: specZeroPad12 (Int.toNat 10)) :=
  (s3_object_id_spec "arn:aws:s3:::b" "k" 10 (by norm_num) (by norm_num)).1

/-- C7: for every stream document with stream type t, stream name n,
sequence number s and offset o with 0 ≤ o < 10^12, kinesis_record_id
returns the first 10 hex characters of SHA-256(t ++ n ++ "-" ++ s), a
dash, and o zero-padded to 12 decimal digits (exactly 12 characters). -/
theorem kinesis_record_id_spec (t n s : String) (o : Int) (h0 : 0 ≤ o)
    (h1 : o < 1000000000000) :
    (kinesis_record_id ⟨o, t, n, s⟩
        = String.mk ((sha256HexChars (t ++ n ++ "-" ++ s)).take 10
            ++ '-' :: specZeroPad12 o.toNat))
      ∧ (specZeroPad12 o.toNat).length = 12 := by
  have hfmt : pyFormat012 o = specZeroPad12 o.toNat := by
    unfold pyFormat012 specZeroPad12
    rw [if_neg (not_lt.mpr h0)]
  refine ⟨?_, specZeroPad12_length (by omega)⟩
  simp only [kinesis_record_id, hfmt]

/-- Witness for C7 at a concrete stream document. -/
theorem kinesis_record_id_witness :
    kinesis_record_id ⟨10, "stream", "test-esf-stream", "49640"⟩
      = String.mk ((sha256HexChars
            ("stream" ++ "test-esf-stream" ++ "-" ++ "49640")).take 10
          ++ '-' :: specZeroPad12 (Int.toNat 10)) :=
  (kinesis_record_id_spec "stream" "test-esf-stream" "49640" 10 (by norm_num)
    (by norm_num)).1

/-! ## Claim about the shipper buffer invariant -/

/-- One step keeps the buffer strictly below the threshold (in the
subtraction-truncated sense) and preserves the threshold. -/
theorem esStep_preserves (s : EsShipperState) (op : ShipperOp)
    (h : s.bulk_actions.length ≤ s.batch_max_actions - 1) :
    (esStep s op).bulk_actions.length ≤ (esStep s op).batch_max_actions - 1
      ∧ (esStep s op).batch_max_actions = s.batch_max_actions := by
  cases op with
  | flushOp outcome => simp [esStep, esFlush]
  | send a outcome =>
    simp only [esStep, esSend]
    split
    · simp [esFlush]
    · rename_i hcond
      push_neg at hcond
      obtain ⟨hz, hlt⟩ := hcond
      refine ⟨?_, rfl⟩
      show (s.bulk_actions ++ [a]).length ≤ s.batch_max_actions - 1
      have hlt2 : (s.bulk_actions ++ [a]).length < s.batch_max_actions := hlt
      simp only [List.length_append, List.length_cons, List.length_nil] at hlt2 ⊢
      omega

/-- Folding any operation sequence from an invariant-satisfying state keeps
the invariant and the threshold. -/
theorem esRun_foldl_inv (ops : List ShipperOp) :
    ∀ s : EsShipperState, s.bulk_actions.length ≤ s.batch_max_actions - 1 →
      (ops.foldl esStep s).bulk_actions.length
          ≤ (ops.foldl esStep s).batch_max_actions - 1
        ∧ (ops.foldl esStep s).batch_max_actions = s.batch_max_actions := by
  induction ops with
  | nil => exact fun s h => ⟨h, rfl⟩
  | cons op ops ih =>
    intro s h
    have h1 := esStep_preserves s op h
    have h2 := ih (esStep s op) h1.1
    simp only [List.foldl_cons]
    exact ⟨h2.1, h2.2.trans h1.2⟩

/-- C6: for every batch-size threshold and every sequence of send and flush
operations from a fresh shipper, the pending buffer between operations
stays at or below the threshold (strictly below a positive threshold, so a
send reaching the threshold flushes at once and the buffer never exceeds
it before a flush is triggered), and the buffer is empty immediately after
any flush — whatever the bulk outcome (full success or partial failure)
and even when the buffer was already empty. -/
theorem es_buffer_invariant :
    (∀ threshold ops,
      (esRun threshold ops).bulk_actions.length ≤ threshold - 1
        ∧ (esRun threshold ops).bulk_actions.length ≤ threshold)
    ∧ (∀ s outcome, (esFlush s outcome).bulk_actions = []) := by
  constructor
  · intro threshold ops
    have h := esRun_foldl_inv ops ⟨[], threshold, []⟩ (by simp)
    unfold esRun
    rw [h.2] at h
    exact ⟨h.1, le_trans h.1 (Nat.sub_le _ _)⟩
  · intro s outcome
    rfl

/-- Validation of the shipper model against the expectations of
`src/tests/shippers/test_es.py`: with threshold 2 one send leaves one
buffered action and a later flush empties the buffer (flushing again is a
no-op); with threshold 0 every send flushes at once; a rejected action is
routed to the replay channel while the buffer still empties. -/
theorem es_model_matches_tests :
    (esRun 2 [.send "a" []]).bulk_actions = ["a"]
      ∧ (esRun 2 [.send "a" [], .flushOp [], .flushOp []]).bulk_actions = []
      ∧ (esRun 0 [.send "a" []]).bulk_actions = []
      ∧ (esRun 0 [.send "a" [0]]).replayed = ["a"]
      ∧ (esRun 0 [.send "a" [0]]).bulk_actions = [] := by
  refine ⟨rfl, rfl, rfl, rfl, rfl⟩

end ESF
